import Mathlib

/-!
Verification development for the image-viewer application.

The definitions below are shallow embeddings of the TypeScript source:
  - `src/utils/fileSystem.ts` (export loop, scan),
  - `src/utils/database.ts` (the sql.js-backed session/selection store),
  - the main application component (folder selection / reconciliation,
    selection toggling, grid-mode toggle, keyboard navigation, and the
    full-resolution cache with its cleanup effect).

Conventions: JavaScript numbers that hold integer indices are modelled as
`Int` (or `Nat` where the source value is manifestly a count); JS `x % y`
and `Math.floor(x / y)` are modelled with `Int.emod` / `Int.ediv`, which
agree with the JS operators on the non-negative operands arising here;
JS `undefined`/`null` become `Option`; a thrown exception becomes
`Except.error`; the opaque `FileSystemFileHandle` is modelled as an opaque
`Nat` token.  Fire-and-forget IndexedDB snapshots (`saveToIndexedDB`) have
no observable effect on the modelled store state and are omitted.
-/

/-! ## Export loop (`fileSystem.ts`, `exportSelectedImages`) -/

/-- One element of the list passed to `exportSelectedImages`: only the
fields the export loop reads. -/
structure ExportItem where
  fileName : String
  selected : Bool
deriving Repr, DecidableEq

/-- The result record `{ success, failed, errors }` built by the export
loop. -/
structure ExportResult where
  success : Nat
  failed : Nat
  errors : List String
deriving Repr, DecidableEq

/-- One iteration of the `for` loop in `exportSelectedImages`.  The whole
per-item body (`getFile`, `getFileHandle`, `createWritable`, `write`,
`close`) sits inside one `try`; `copyRes img = none` models the copy
succeeding and `copyRes img = some e` models any of those steps throwing
with message `e`, in which case the `catch` increments `failed` and pushes
one itemized message. -/
def exportStep (copyRes : ExportItem → Option String) (acc : ExportResult)
    (img : ExportItem) : ExportResult :=
  match copyRes img with
  | none => { acc with success := acc.success + 1 }
  | some e =>
    { acc with
      failed := acc.failed + 1
      errors := acc.errors ++ ["Failed to copy " ++ img.fileName ++ ": " ++ e] }

/-- `exportSelectedImages` from `fileSystem.ts`.  Returns the thrown error
or the aggregated result, paired with a flag recording whether
`window.showDirectoryPicker` (the destination request) was invoked. -/
def exportSelectedImages (copyRes : ExportItem → Option String)
    (images : List ExportItem) : Except String ExportResult × Bool :=
  let selectedImages := images.filter (fun img => img.selected)
  if selectedImages.length = 0 then
    (Except.error "No images selected", false)
  else
    (Except.ok (selectedImages.foldl (exportStep copyRes) ⟨0, 0, []⟩), true)

theorem exportLoop_success_add_failed (copyRes : ExportItem → Option String) :
    ∀ (l : List ExportItem) (acc : ExportResult),
      (l.foldl (exportStep copyRes) acc).success +
        (l.foldl (exportStep copyRes) acc).failed =
      acc.success + acc.failed + l.length := by
  intro l
  induction l with
  | nil => intro acc; simp
  | cons hd tl ih =>
    intro acc
    rw [List.foldl_cons, ih]
    unfold exportStep
    cases copyRes hd <;> simp <;> omega

theorem exportLoop_errors_length (copyRes : ExportItem → Option String) :
    ∀ (l : List ExportItem) (acc : ExportResult),
      acc.errors.length = acc.failed →
      (l.foldl (exportStep copyRes) acc).errors.length =
        (l.foldl (exportStep copyRes) acc).failed := by
  intro l
  induction l with
  | nil => intro acc h; simpa using h
  | cons hd tl ih =>
    intro acc h
    rw [List.foldl_cons]
    apply ih
    unfold exportStep
    cases copyRes hd <;> simp [h]

/-- Claim C8: bulk export with zero selected items fails immediately with
the error `"No images selected"`, and the destination folder is never
requested (the picker flag is `false`), for every item list in which no
item has `selected = true` and every copy-outcome assignment. -/
theorem C8_export_zero_selection_fails_before_destination
    (copyRes : ExportItem → Option String) (images : List ExportItem)
    (hnone : ∀ img ∈ images, img.selected = false) :
    exportSelectedImages copyRes images =
      (Except.error "No images selected", false) := by
  unfold exportSelectedImages
  have hfilter : images.filter (fun img => img.selected) = [] := by
    apply List.filter_eq_nil.2
    intro a ha
    simp [hnone a ha]
  simp [hfilter]

/-- Witness for C8: two unselected items. -/
theorem C8_witness :
    (∀ img ∈ ([⟨"a.jpg", false⟩, ⟨"b.jpg", false⟩] : List ExportItem),
        img.selected = false) ∧
    exportSelectedImages (fun _ => none) [⟨"a.jpg", false⟩, ⟨"b.jpg", false⟩] =
      (Except.error "No images selected", false) :=
  ⟨by decide,
   C8_export_zero_selection_fails_before_destination (fun _ => none)
     [⟨"a.jpg", false⟩, ⟨"b.jpg", false⟩] (by decide)⟩

/-- Claim C9: with at least one selected item, the export loop catches each
per-item failure at the item boundary and runs to completion: the result is
`Except.ok`, the destination was requested, `success + failed` equals the
number of selected items, and `errors` holds exactly one message per failed
item. -/
theorem C9_export_per_item_failures_aggregated
    (copyRes : ExportItem → Option String) (images : List ExportItem)
    (hsome : images.filter (fun img => img.selected) ≠ []) :
    ∃ r : ExportResult,
      exportSelectedImages copyRes images = (Except.ok r, true) ∧
      r.success + r.failed = (images.filter (fun img => img.selected)).length ∧
      r.errors.length = r.failed := by
  unfold exportSelectedImages
  have hlen : (images.filter (fun img => img.selected)).length ≠ 0 := by
    simpa [List.length_eq_zero] using hsome
  refine ⟨(images.filter (fun img => img.selected)).foldl
    (exportStep copyRes) ⟨0, 0, []⟩, ?_, ?_, ?_⟩
  · simp [hlen]
  · have h := exportLoop_success_add_failed copyRes
      (images.filter (fun img => img.selected)) ⟨0, 0, []⟩
    simpa using h
  · exact exportLoop_errors_length copyRes _ ⟨0, 0, []⟩ rfl

/-- Witness for C9: three selected items of which exactly one fails to
copy; the result is `success = 2`, `failed = 1`, one itemized message, as
in the concrete scenario of the claim. -/
theorem C9_witness :
    ([(⟨"a.jpg", true⟩ : ExportItem), ⟨"b.jpg", true⟩, ⟨"c.jpg", true⟩].filter
        (fun img => img.selected) ≠ []) ∧
    (∃ r : ExportResult,
      exportSelectedImages
          (fun img => if img.fileName = "b.jpg" then some "read failed" else none)
          [⟨"a.jpg", true⟩, ⟨"b.jpg", true⟩, ⟨"c.jpg", true⟩] =
        (Except.ok r, true) ∧
      r.success + r.failed = 3 ∧ r.errors.length = r.failed) ∧
    exportSelectedImages
        (fun img => if img.fileName = "b.jpg" then some "read failed" else none)
        [⟨"a.jpg", true⟩, ⟨"b.jpg", true⟩, ⟨"c.jpg", true⟩] =
      (Except.ok ⟨2, 1, ["Failed to copy b.jpg: read failed"]⟩, true) :=
  ⟨by decide,
   C9_export_per_item_failures_aggregated
     (fun img => if img.fileName = "b.jpg" then some "read failed" else none)
     [⟨"a.jpg", true⟩, ⟨"b.jpg", true⟩, ⟨"c.jpg", true⟩] (by decide),
   by rfl⟩

/-! ## Selection toggle (`App`, `handleSelectImage`) -/

/-- The in-memory `ImageItem` of the application component.  The opaque
`FileSystemFileHandle` is modelled as a `Nat` token. -/
structure ImageItem where
  id : String
  fileHandle : Nat
  fileName : String
  path : String
  size : Nat
  thumbnailUrl : Option String
  fullResUrl : Option String
  lastModified : Nat
  selected : Bool
deriving Repr, DecidableEq

/-- The per-element update performed by `handleSelectImage`: the item whose
`id` matches gets `selected` flipped, every other item is returned
unchanged.  (The database write inside the branch does not touch the
in-memory list.) -/
def toggleSelectOne (id : String) (img : ImageItem) : ImageItem :=
  if img.id = id then { img with selected := !img.selected } else img

/-- `handleSelectImage` restricted to its effect on the in-memory item
list: `prev.map` with the matching item flipped. -/
def handleSelectImage (id : String) (images : List ImageItem) : List ImageItem :=
  images.map (toggleSelectOne id)

theorem toggleSelectOne_involutive (id : String) (img : ImageItem) :
    toggleSelectOne id (toggleSelectOne id img) = img := by
  cases img with
  | mk iid fh fn p sz th fr lm sel =>
    unfold toggleSelectOne
    by_cases h : iid = id
    · subst h; simp
    · simp [h]

/-- Claim C10: toggling the selection of an item id twice restores the
in-memory item list, and a single toggle changes only the `selected` field
of the item with that id, leaving every other field of that item and every
other item unchanged. -/
theorem C10_toggle_selection_self_inverse_and_frame (id : String)
    (images : List ImageItem) :
    handleSelectImage id (handleSelectImage id images) = images ∧
    ∀ i : Nat, ∀ img img2 : ImageItem,
      images.get? i = some img →
      (handleSelectImage id images).get? i = some img2 →
      img2.id = img.id ∧ img2.fileHandle = img.fileHandle ∧
      img2.fileName = img.fileName ∧ img2.path = img.path ∧
      img2.size = img.size ∧ img2.thumbnailUrl = img.thumbnailUrl ∧
      img2.fullResUrl = img.fullResUrl ∧
      img2.lastModified = img.lastModified ∧
      (img.id = id → img2.selected = !img.selected) ∧
      (img.id ≠ id → img2.selected = img.selected) := by
  constructor
  · unfold handleSelectImage
    rw [List.map_map]
    induction images with
    | nil => rfl
    | cons hd tl ih =>
      simp only [List.map_cons, Function.comp_apply, toggleSelectOne_involutive]
      exact congrArg (List.cons hd) ih
  · intro i img img2 hget hget2
    unfold handleSelectImage at hget2
    rw [List.get?_map, hget] at hget2
    simp only [Option.map_some', Option.some.injEq] at hget2
    subst hget2
    unfold toggleSelectOne
    by_cases h : img.id = id
    · simp [h]
    · simp [h]

/-- Witness for C10 at a concrete two-item list: double toggle restores the
list, and the toggled first item has its `selected` flag flipped. -/
theorem C10_witness :
    handleSelectImage "a" (handleSelectImage "a"
      [⟨"a", 0, "a.jpg", "a.jpg", 10, none, none, 5, false⟩,
       ⟨"b", 1, "b.jpg", "b.jpg", 11, none, none, 6, true⟩]) =
      [⟨"a", 0, "a.jpg", "a.jpg", 10, none, none, 5, false⟩,
       ⟨"b", 1, "b.jpg", "b.jpg", 11, none, none, 6, true⟩] ∧
    (toggleSelectOne "a"
      (⟨"a", 0, "a.jpg", "a.jpg", 10, none, none, 5, false⟩ : ImageItem)).selected =
      !(false : Bool) := by
  refine ⟨(C10_toggle_selection_self_inverse_and_frame "a" _).1, ?_⟩
  have h := (C10_toggle_selection_self_inverse_and_frame "a"
    [⟨"a", 0, "a.jpg", "a.jpg", 10, none, none, 5, false⟩,
     ⟨"b", 1, "b.jpg", "b.jpg", 11, none, none, 6, true⟩]).2 0
    ⟨"a", 0, "a.jpg", "a.jpg", 10, none, none, 5, false⟩
    (toggleSelectOne "a" ⟨"a", 0, "a.jpg", "a.jpg", 10, none, none, 5, false⟩)
    rfl rfl
  exact h.2.2.2.2.2.2.2.2.1 rfl

/-! ## Session/selection store (`database.ts`)

The sql.js database is modelled as two tables (lists of rows) plus the
autoincrement counters.  The module-level mutable `db : Database | null`
becomes an explicit `DbState := Option Store` threaded through every
operation; `getDatabase`'s null check becomes the `withDb` combinator,
which returns the thrown "not initialized" error and leaves the state
untouched.  `saveToIndexedDB` is fire-and-forget and does not change the
modelled relational state, so it is omitted. -/

/-- One row of the `sessions` table. -/
structure SessionRow where
  id : Nat
  folderName : String
  createdAt : Nat
  lastAccessed : Nat
  gridMode : String
  currentPage : Int
  focusedIndex : Int
deriving Repr, DecidableEq

/-- One row of the `images` table.  `selected` is stored as `0/1` in SQL
and read back through `row[6] === 1`; the round trip is modelled as
`Bool`.  `thumbnail_data` is nullable text. -/
structure ImageRow where
  id : Nat
  sessionId : Nat
  fileName : String
  filePath : String
  size : Nat
  lastModified : Nat
  selected : Bool
  thumbnailData : Option String
deriving Repr, DecidableEq

/-- The relational content of the sql.js database. -/
structure Store where
  sessions : List SessionRow
  images : List ImageRow
  nextSessionId : Nat
  nextImageId : Nat
deriving Repr, DecidableEq

/-- The module-level `let db: Database | null = null` cell. -/
abbrev DbState := Option Store

/-- The message thrown by `getDatabase` before `initDatabase` has run. -/
def uninitializedMsg : String :=
  "Database not initialized. Call initDatabase() first."

/-- Every store operation begins with `const db = getDatabase()`: if the
module-level cell is null the operation throws and the state is unchanged;
otherwise the body runs on the database. -/
def withDb {α : Type} (f : Store → α × Store) :
    DbState → Except String α × DbState
  | none => (Except.error uninitializedMsg, none)
  | some d => ((fun p => (Except.ok p.1, some p.2)) (f d))

/-- JS truthiness coercion `x || undefined` / `x || null` on a nullable
string: `null`, `undefined` and `""` all collapse to "absent". -/
def jsStringOrNone : Option String → Option String
  | some s => if s = "" then none else some s
  | none => none

/-- Stable insertion (descending) used to model `ORDER BY last_accessed
DESC`. -/
def insertByKeyDesc {α : Type} (key : α → Nat) (x : α) : List α → List α
  | [] => [x]
  | y :: ys => if key y < key x then x :: y :: ys else y :: insertByKeyDesc key x ys

/-- Sort a list descending by a `Nat` key. -/
def sortByKeyDesc {α : Type} (key : α → Nat) : List α → List α
  | [] => []
  | x :: xs => insertByKeyDesc key x (sortByKeyDesc key xs)

/-- Stable insertion (ascending by file name) used to model `ORDER BY
file_name`. -/
def insertByNameAsc (x : ImageRow) : List ImageRow → List ImageRow
  | [] => [x]
  | y :: ys => if x.fileName < y.fileName then x :: y :: ys else y :: insertByNameAsc x ys

/-- Sort image rows ascending by `file_name`. -/
def sortByNameAsc : List ImageRow → List ImageRow
  | [] => []
  | x :: xs => insertByNameAsc x (sortByNameAsc xs)

/-- `createSession`: inserts a session row (SQL defaults `current_page = 0`,
`focused_index = 0`) and returns `last_insert_rowid()`.  `now` stands for
`Date.now()`. -/
def createSession (folderName : String) (gridMode : String) (now : Nat) :
    DbState → Except String Nat × DbState :=
  withDb (fun d =>
    (d.nextSessionId,
     { d with
       sessions := d.sessions ++
         [{ id := d.nextSessionId, folderName := folderName, createdAt := now,
            lastAccessed := now, gridMode := gridMode, currentPage := 0,
            focusedIndex := 0 }]
       nextSessionId := d.nextSessionId + 1 }))

/-- `updateSession`: updates grid mode, current page, optionally the
focused index, and `last_accessed`, on the rows with the given id. -/
def updateSession (sessionId : Nat) (gridMode : String) (currentPage : Int)
    (focusedIndex : Option Int) (now : Nat) :
    DbState → Except String Unit × DbState :=
  withDb (fun d =>
    ((),
     { d with
       sessions := d.sessions.map (fun r =>
         if r.id = sessionId then
           match focusedIndex with
           | some fi =>
             { r with gridMode := gridMode, currentPage := currentPage,
                      focusedIndex := fi, lastAccessed := now }
           | none =>
             { r with gridMode := gridMode, currentPage := currentPage,
                      lastAccessed := now }
         else r) }))

/-- `getSession`: `SELECT * FROM sessions WHERE id = ?`, first row or
null. -/
def getSession (sessionId : Nat) :
    DbState → Except String (Option SessionRow) × DbState :=
  withDb (fun d => (d.sessions.find? (fun r => r.id == sessionId), d))

/-- `getAllSessions`: all session rows ordered by `last_accessed DESC`. -/
def getAllSessions : DbState → Except String (List SessionRow) × DbState :=
  withDb (fun d => (sortByKeyDesc (fun r => r.lastAccessed) d.sessions, d))

/-- `findSessionByFolderName`: most recently accessed session with the
given folder name, or null. -/
def findSessionByFolderName (folderName : String) :
    DbState → Except String (Option SessionRow) × DbState :=
  withDb (fun d =>
    ((sortByKeyDesc (fun r => r.lastAccessed)
        (d.sessions.filter (fun r => r.folderName == folderName))).head?, d))

/-- The argument record of `saveImage`. -/
structure NewImageData where
  fileName : String
  filePath : String
  size : Nat
  lastModified : Nat
  selected : Bool
  thumbnailData : Option String
deriving Repr, DecidableEq

/-- `saveImage`: inserts one image row; `image.thumbnailData || null`
collapses an empty string to SQL NULL. -/
def saveImage (sessionId : Nat) (image : NewImageData) :
    DbState → Except String Unit × DbState :=
  withDb (fun d =>
    ((),
     { d with
       images := d.images ++
         [{ id := d.nextImageId, sessionId := sessionId,
            fileName := image.fileName, filePath := image.filePath,
            size := image.size, lastModified := image.lastModified,
            selected := image.selected,
            thumbnailData := jsStringOrNone image.thumbnailData }]
       nextImageId := d.nextImageId + 1 }))

/-- `updateImageThumbnail`: sets `thumbnail_data` on the rows matching
session id and file path. -/
def updateImageThumbnail (sessionId : Nat) (filePath : String)
    (thumbnailData : String) : DbState → Except String Unit × DbState :=
  withDb (fun d =>
    ((),
     { d with
       images := d.images.map (fun r =>
         if r.sessionId = sessionId ∧ r.filePath = filePath then
           { r with thumbnailData := some thumbnailData }
         else r) }))

/-- `updateImageSelection`: sets `selected` on the rows matching session id
and file path. -/
def updateImageSelection (sessionId : Nat) (filePath : String)
    (selected : Bool) : DbState → Except String Unit × DbState :=
  withDb (fun d =>
    ((),
     { d with
       images := d.images.map (fun r =>
         if r.sessionId = sessionId ∧ r.filePath = filePath then
           { r with selected := selected }
         else r) }))

/-- `getSessionImages`: all image rows of a session ordered by
`file_name`. -/
def getSessionImages (sessionId : Nat) :
    DbState → Except String (List ImageRow) × DbState :=
  withDb (fun d =>
    (sortByNameAsc (d.images.filter (fun r => r.sessionId == sessionId)), d))

/-- `getSelectedImages`: the selected image rows of a session. -/
def getSelectedImages (sessionId : Nat) :
    DbState → Except String (List ImageRow) × DbState :=
  withDb (fun d =>
    (d.images.filter (fun r => r.sessionId == sessionId && r.selected), d))

/-- `deleteSession`: deletes the session row.  (sql.js never enables
`PRAGMA foreign_keys`, so the declared `ON DELETE CASCADE` does not fire
and image rows are left in place.) -/
def deleteSession (sessionId : Nat) :
    DbState → Except String Unit × DbState :=
  withDb (fun d =>
    ((), { d with sessions := d.sessions.filter (fun r => !(r.id == sessionId)) }))

/-- `exportDatabase`: `db.export()`, modelled as returning the relational
content. -/
def exportDatabase : DbState → Except String Store × DbState :=
  withDb (fun d => (d, d))

theorem withDb_none {α : Type} (f : Store → α × Store) :
    withDb f none = (Except.error uninitializedMsg, none) := rfl

theorem withDb_some_isOk {α : Type} (f : Store → α × Store) (d : Store) :
    (withDb f (some d)).1 = Except.ok (f d).1 := rfl

/-- Claim C7: every store operation invoked before `initDatabase` has run
throws the "not initialized" error and leaves the store state unchanged
(still uninitialized); the same call on an initialized store does not
throw that error. -/
theorem C7_store_operations_require_initialization
    (folderName gridMode filePath td : String) (now sid : Nat)
    (cp fi : Int) (fiOpt : Option Int) (data : NewImageData) (sel : Bool)
    (d : Store) :
    (createSession folderName gridMode now none =
        (Except.error uninitializedMsg, none) ∧
      (createSession folderName gridMode now (some d)).1 ≠
        Except.error uninitializedMsg) ∧
    (updateSession sid gridMode cp fiOpt now none =
        (Except.error uninitializedMsg, none) ∧
      (updateSession sid gridMode cp fiOpt now (some d)).1 ≠
        Except.error uninitializedMsg) ∧
    (getSession sid none = (Except.error uninitializedMsg, none) ∧
      (getSession sid (some d)).1 ≠ Except.error uninitializedMsg) ∧
    (getAllSessions none = (Except.error uninitializedMsg, none) ∧
      (getAllSessions (some d)).1 ≠ Except.error uninitializedMsg) ∧
    (findSessionByFolderName folderName none =
        (Except.error uninitializedMsg, none) ∧
      (findSessionByFolderName folderName (some d)).1 ≠
        Except.error uninitializedMsg) ∧
    (saveImage sid data none = (Except.error uninitializedMsg, none) ∧
      (saveImage sid data (some d)).1 ≠ Except.error uninitializedMsg) ∧
    (updateImageThumbnail sid filePath td none =
        (Except.error uninitializedMsg, none) ∧
      (updateImageThumbnail sid filePath td (some d)).1 ≠
        Except.error uninitializedMsg) ∧
    (updateImageSelection sid filePath sel none =
        (Except.error uninitializedMsg, none) ∧
      (updateImageSelection sid filePath sel (some d)).1 ≠
        Except.error uninitializedMsg) ∧
    (getSessionImages sid none = (Except.error uninitializedMsg, none) ∧
      (getSessionImages sid (some d)).1 ≠ Except.error uninitializedMsg) ∧
    (getSelectedImages sid none = (Except.error uninitializedMsg, none) ∧
      (getSelectedImages sid (some d)).1 ≠ Except.error uninitializedMsg) ∧
    (deleteSession sid none = (Except.error uninitializedMsg, none) ∧
      (deleteSession sid (some d)).1 ≠ Except.error uninitializedMsg) ∧
    (exportDatabase none = (Except.error uninitializedMsg, none) ∧
      (exportDatabase (some d)).1 ≠ Except.error uninitializedMsg) :=
  ⟨⟨rfl, by simp [createSession, withDb_some_isOk]⟩,
   ⟨rfl, by simp [updateSession, withDb_some_isOk]⟩,
   ⟨rfl, by simp [getSession, withDb_some_isOk]⟩,
   ⟨rfl, by simp [getAllSessions, withDb_some_isOk]⟩,
   ⟨rfl, by simp [findSessionByFolderName, withDb_some_isOk]⟩,
   ⟨rfl, by simp [saveImage, withDb_some_isOk]⟩,
   ⟨rfl, by simp [updateImageThumbnail, withDb_some_isOk]⟩,
   ⟨rfl, by simp [updateImageSelection, withDb_some_isOk]⟩,
   ⟨rfl, by simp [getSessionImages, withDb_some_isOk]⟩,
   ⟨rfl, by simp [getSelectedImages, withDb_some_isOk]⟩,
   ⟨rfl, by simp [deleteSession, withDb_some_isOk]⟩,
   ⟨rfl, by simp [exportDatabase, withDb_some_isOk]⟩⟩

/-! ## Reconciliation (`App`, `handleSelectFolder`, restore branch) -/

/-- The value stored in `savedDataMap` for one persisted row:
`{ selected: img.selected, thumbnailData: img.thumbnailData }`. -/
structure SavedData where
  selected : Bool
  thumbnailData : Option String
deriving Repr, DecidableEq

/-- `new Map(savedImages.map(img => [img.filePath, ...]))` followed by
`savedDataMap.get(img.path)`.  A JS `Map` built from a pair list keeps,
for each key, the last pair with that key, hence the lookup searches the
reversed row list. -/
def savedDataLookup (savedImages : List ImageRow) (path : String) :
    Option SavedData :=
  (savedImages.reverse.find? (fun r => r.filePath == path)).map
    (fun r => { selected := r.selected, thumbnailData := r.thumbnailData })

/-- The merge of `handleSelectFolder`: for every freshly scanned item, look
up the persisted row by path; `savedData?.selected || false` and
`savedData?.thumbnailData || undefined` give the merged `selected` and
`thumbnailUrl`. -/
def mergeScannedWithSaved (scannedImages : List ImageItem)
    (savedImages : List ImageRow) : List ImageItem :=
  scannedImages.map (fun img =>
    let savedData := savedDataLookup savedImages img.path
    { img with
      selected :=
        match savedData with
        | some sd => sd.selected || false
        | none => false
      thumbnailUrl :=
        match savedData with
        | some sd => jsStringOrNone sd.thumbnailData
        | none => none })

theorem find?_filePath_of_nodup :
    ∀ (l : List ImageRow) (r : ImageRow) (p : String),
      (l.map (fun x => x.filePath)).Nodup → r ∈ l → r.filePath = p →
      l.find? (fun x => x.filePath == p) = some r := by
  intro l
  induction l with
  | nil => intro r p _ hmem _; cases hmem
  | cons hd tl ih =>
    intro r p hnodup hmem hp
    rw [List.map_cons, List.nodup_cons] at hnodup
    by_cases hhd : hd.filePath = p
    · have hr : r = hd := by
        cases List.mem_cons.1 hmem with
        | inl h => exact h
        | inr h =>
          exfalso
          apply hnodup.1
          rw [hhd, ← hp]
          exact List.mem_map_of_mem (fun x => x.filePath) h
      subst hr
      rw [List.find?_cons_of_pos]
      simpa using hhd
    · have hr : r ∈ tl := by
        cases List.mem_cons.1 hmem with
        | inl h => exact absurd (h ▸ hp) hhd
        | inr h => exact h
      rw [List.find?_cons_of_neg]
      · exact ih r p hnodup.2 hr hp
      · simpa using hhd

theorem savedDataLookup_found (saved : List ImageRow) (r : ImageRow)
    (p : String) (hnodup : (saved.map (fun x => x.filePath)).Nodup)
    (hmem : r ∈ saved) (hp : r.filePath = p) :
    savedDataLookup saved p =
      some { selected := r.selected, thumbnailData := r.thumbnailData } := by
  unfold savedDataLookup
  rw [find?_filePath_of_nodup saved.reverse r p
    (by rw [List.map_reverse, List.nodup_reverse]; exact hnodup)
    (List.mem_reverse.2 hmem) hp]
  rfl

theorem savedDataLookup_absent (saved : List ImageRow) (p : String)
    (habs : ∀ r ∈ saved, r.filePath ≠ p) :
    savedDataLookup saved p = none := by
  unfold savedDataLookup
  rw [List.find?_eq_none.2]
  · rfl
  · intro x hx
    simpa using habs x (List.mem_reverse.1 hx)

/-- Claim C1: reconciliation is a stable merge keyed by path.  Under the
session invariant that persisted paths are unique (and no thumbnail is the
empty string, which JS `||` would collapse), every freshly scanned item
whose path occurs among the persisted rows carries over that row's
`selected` flag and thumbnail data, and every item whose path is absent
starts with `selected = false` and no thumbnail. -/
theorem C1_reconciliation_stable_merge_keyed_by_path
    (scanned : List ImageItem) (saved : List ImageRow)
    (hnodup : (saved.map (fun x => x.filePath)).Nodup)
    (hthumb : ∀ r ∈ saved, r.thumbnailData ≠ some "") :
    ∀ (i : Nat) (img : ImageItem), scanned.get? i = some img →
      (∀ r ∈ saved, r.filePath = img.path →
        (mergeScannedWithSaved scanned saved).get? i =
          some { img with selected := r.selected,
                          thumbnailUrl := r.thumbnailData }) ∧
      ((∀ r ∈ saved, r.filePath ≠ img.path) →
        (mergeScannedWithSaved scanned saved).get? i =
          some { img with selected := false, thumbnailUrl := none }) := by
  intro i img hget
  have hmap : (mergeScannedWithSaved scanned saved).get? i =
      some (let savedData := savedDataLookup saved img.path
        { img with
          selected :=
            match savedData with
            | some sd => sd.selected || false
            | none => false
          thumbnailUrl :=
            match savedData with
            | some sd => jsStringOrNone sd.thumbnailData
            | none => none }) := by
    unfold mergeScannedWithSaved
    rw [List.get?_map, hget]
    rfl
  constructor
  · intro r hr hrp
    rw [hmap, savedDataLookup_found saved r img.path hnodup hr hrp]
    have hjs : jsStringOrNone r.thumbnailData = r.thumbnailData := by
      unfold jsStringOrNone
      cases htd : r.thumbnailData with
      | none => rfl
      | some s =>
        have : s ≠ "" := by
          intro hs
          exact hthumb r hr (by rw [htd, hs])
        simp [this]
    simp [hjs]
  · intro habs
    rw [hmap, savedDataLookup_absent saved img.path habs]

/-- Witness for C1: one scanned item whose path has a persisted row (it
carries over `selected = true` and the thumbnail) and one whose path has
none (it starts unselected with no thumbnail). -/
theorem C1_witness :
    (mergeScannedWithSaved
        [⟨"a-1", 0, "a.jpg", "a.jpg", 10, none, none, 1, false⟩,
         ⟨"c-1", 1, "c.jpg", "c.jpg", 12, none, none, 1, false⟩]
        [⟨1, 1, "a.jpg", "a.jpg", 10, 1, true, some "THUMB"⟩,
         ⟨2, 1, "b.jpg", "b.jpg", 11, 1, false, none⟩]).get? 0 =
      some ⟨"a-1", 0, "a.jpg", "a.jpg", 10, some "THUMB", none, 1, true⟩ ∧
    (mergeScannedWithSaved
        [⟨"a-1", 0, "a.jpg", "a.jpg", 10, none, none, 1, false⟩,
         ⟨"c-1", 1, "c.jpg", "c.jpg", 12, none, none, 1, false⟩]
        [⟨1, 1, "a.jpg", "a.jpg", 10, 1, true, some "THUMB"⟩,
         ⟨2, 1, "b.jpg", "b.jpg", 11, 1, false, none⟩]).get? 1 =
      some ⟨"c-1", 1, "c.jpg", "c.jpg", 12, none, none, 1, false⟩ := by
  constructor
  · exact (C1_reconciliation_stable_merge_keyed_by_path
      [⟨"a-1", 0, "a.jpg", "a.jpg", 10, none, none, 1, false⟩,
       ⟨"c-1", 1, "c.jpg", "c.jpg", 12, none, none, 1, false⟩]
      [⟨1, 1, "a.jpg", "a.jpg", 10, 1, true, some "THUMB"⟩,
       ⟨2, 1, "b.jpg", "b.jpg", 11, 1, false, none⟩]
      (by decide) (by decide) 0
      ⟨"a-1", 0, "a.jpg", "a.jpg", 10, none, none, 1, false⟩ rfl).1
      ⟨1, 1, "a.jpg", "a.jpg", 10, 1, true, some "THUMB"⟩
      (by decide) rfl
  · exact (C1_reconciliation_stable_merge_keyed_by_path
      [⟨"a-1", 0, "a.jpg", "a.jpg", 10, none, none, 1, false⟩,
       ⟨"c-1", 1, "c.jpg", "c.jpg", 12, none, none, 1, false⟩]
      [⟨1, 1, "a.jpg", "a.jpg", 10, 1, true, some "THUMB"⟩,
       ⟨2, 1, "b.jpg", "b.jpg", 11, 1, false, none⟩]
      (by decide) (by decide) 1
      ⟨"c-1", 1, "c.jpg", "c.jpg", 12, none, none, 1, false⟩ rfl).2
      (by decide)

/-- The restore branch of `handleSelectFolder` (lines 141-160): read the
session's saved rows, merge them with the fresh scan, and update the
session's `last_accessed` via `updateSession`; the merged list is the new
in-memory item list. -/
def restoreExistingSession (sessionId : Nat) (gridMode : String)
    (currentPage focusedIndex : Int) (scannedImages : List ImageItem)
    (now : Nat) (s : DbState) : Except String (List ImageItem) × DbState :=
  match getSessionImages sessionId s with
  | (Except.ok savedImages, s1) =>
    let mergedImages := mergeScannedWithSaved scannedImages savedImages
    let s2 := (updateSession sessionId gridMode currentPage
      (some focusedIndex) now s1).2
    (Except.ok mergedImages, s2)
  | (Except.error e, s1) => (Except.error e, s1)

theorem mergeScannedWithSaved_paths (scanned : List ImageItem)
    (saved : List ImageRow) :
    (mergeScannedWithSaved scanned saved).map (fun m => m.path) =
      scanned.map (fun img => img.path) := by
  unfold mergeScannedWithSaved
  rw [List.map_map]
  rfl

/-- Claim C6: reconciliation against an existing session produces an
in-memory list containing only freshly scanned paths — every persisted row
whose path is absent from the scan is dropped from the merged list — while
the durable store's image rows are left entirely unchanged (no row is
deleted or modified by the reconciliation step). -/
theorem C6_reconciliation_drops_missing_without_deleting
    (sessionId : Nat) (gridMode : String) (currentPage focusedIndex : Int)
    (scanned : List ImageItem) (now : Nat) (d : Store) :
    (∃ d2 : Store,
      (restoreExistingSession sessionId gridMode currentPage focusedIndex
        scanned now (some d)).2 = some d2 ∧
      d2.images = d.images) ∧
    ∀ merged : List ImageItem,
      (restoreExistingSession sessionId gridMode currentPage focusedIndex
        scanned now (some d)).1 = Except.ok merged →
      merged.map (fun m => m.path) = scanned.map (fun img => img.path) ∧
      ∀ r ∈ d.images, r.filePath ∉ scanned.map (fun img => img.path) →
        r.filePath ∉ merged.map (fun m => m.path) := by
  constructor
  · exact ⟨_, rfl, rfl⟩
  · intro merged hmerged
    have hm : merged = mergeScannedWithSaved scanned
        (sortByNameAsc (d.images.filter (fun r => r.sessionId == sessionId))) := by
      simpa [restoreExistingSession, getSessionImages, withDb] using hmerged.symm
    subst hm
    refine ⟨mergeScannedWithSaved_paths _ _, ?_⟩
    intro r _ habs
    rw [mergeScannedWithSaved_paths]
    exact habs

/-- Witness for C6 at a concrete store: the persisted row for `gone.png`
(absent from the scan) does not reappear in the merged list, and the image
table is untouched. -/
theorem C6_witness :
    (∃ d2 : Store,
      (restoreExistingSession 1 "5x5" 0 0
        [⟨"a-1", 0, "a.jpg", "a.jpg", 10, none, none, 1, false⟩] 99
        (some ⟨[⟨1, "pics", 0, 0, "5x5", 0, 0⟩],
               [⟨1, 1, "gone.png", "gone.png", 5, 1, true, none⟩], 2, 2⟩)).2 =
        some d2 ∧
      d2.images = [⟨1, 1, "gone.png", "gone.png", 5, 1, true, none⟩]) ∧
    "gone.png" ∉ (mergeScannedWithSaved
        [⟨"a-1", 0, "a.jpg", "a.jpg", 10, none, none, 1, false⟩]
        (sortByNameAsc
          (([⟨1, 1, "gone.png", "gone.png", 5, 1, true, none⟩] :
              List ImageRow).filter (fun r => r.sessionId == 1)))).map
      (fun m => m.path) := by
  constructor
  · exact (C6_reconciliation_drops_missing_without_deleting 1 "5x5" 0 0
      [⟨"a-1", 0, "a.jpg", "a.jpg", 10, none, none, 1, false⟩] 99
      ⟨[⟨1, "pics", 0, 0, "5x5", 0, 0⟩],
       [⟨1, 1, "gone.png", "gone.png", 5, 1, true, none⟩], 2, 2⟩).1
  · exact ((C6_reconciliation_drops_missing_without_deleting 1 "5x5" 0 0
      [⟨"a-1", 0, "a.jpg", "a.jpg", 10, none, none, 1, false⟩] 99
      ⟨[⟨1, "pics", 0, 0, "5x5", 0, 0⟩],
       [⟨1, 1, "gone.png", "gone.png", 5, 1, true, none⟩], 2, 2⟩).2 _ rfl).2
      ⟨1, 1, "gone.png", "gone.png", 5, 1, true, none⟩ (by decide) (by decide)

/-! ## Grid navigation (`App`, keyboard handler)

The keyboard handler is modelled as a pure function of the pre-state
`(gridMode, images.length, currentPage, focusedIndex)`.  JS `%` and
`Math.floor(_ / _)` on the non-negative quantities involved are
`Int.emod` / `Int.ediv`.  The handler computes a candidate `newIndex`
(possibly switching the page inside a branch) and commits it only under
the final `newIndex >= 0 && newIndex < images.length` check. -/

/-- `'5x5' | '6x4'`. -/
inductive GridMode
  | fiveByFive
  | sixByFour
deriving Repr, DecidableEq

/-- `cols = gridMode === '5x5' ? 5 : 6`. -/
def gridCols : GridMode → Int
  | .fiveByFive => 5
  | .sixByFour => 6

/-- `rows = gridMode === '5x5' ? 5 : 4`. -/
def gridRows : GridMode → Int
  | .fiveByFive => 5
  | .sixByFour => 4

/-- `imagesPerPage = cols * rows` (25 or 24). -/
def imagesPerPage (mode : GridMode) : Int := gridCols mode * gridRows mode

/-- `totalPages = Math.ceil(images.length / imagesPerPage)`. -/
def totalPages (mode : GridMode) (len : Nat) : Int :=
  ((len : Int) + imagesPerPage mode - 1).ediv (imagesPerPage mode)

inductive ArrowKey
  | up
  | down
  | left
  | right
deriving Repr, DecidableEq

/-- The `ArrowUp` case: returns the new `(currentPage, newIndex)` pair
before the final range check. -/
def navUp (mode : GridMode) (len : Nat) (cp fi : Int) : Int × Int :=
  let cols := gridCols mode
  let rows := gridRows mode
  let perPage := imagesPerPage mode
  let indexInPage := fi.emod perPage
  let row := indexInPage.ediv cols
  let col := indexInPage.emod cols
  if row > 0 then (cp, fi - cols)
  else if cp > 0 then
    let newPage := cp - 1
    let newPageStartIdx := newPage * perPage
    let lastRowStart := newPageStartIdx + (rows - 1) * cols
    (newPage, min (lastRowStart + col) ((len : Int) - 1))
  else (cp, fi)

/-- The `ArrowDown` case. -/
def navDown (mode : GridMode) (len : Nat) (cp fi : Int) : Int × Int :=
  let cols := gridCols mode
  let rows := gridRows mode
  let perPage := imagesPerPage mode
  let indexInPage := fi.emod perPage
  let row := indexInPage.ediv cols
  let col := indexInPage.emod cols
  let startIdx := cp * perPage
  if row < rows - 1 ∧ fi + cols < (len : Int) then
    (cp, if fi + cols < min (startIdx + perPage) (len : Int) then fi + cols else fi)
  else if cp < totalPages mode len - 1 then
    let newPage := cp + 1
    (newPage, min (newPage * perPage + col) ((len : Int) - 1))
  else (cp, fi)

/-- The `ArrowLeft` case. -/
def navLeft (mode : GridMode) (len : Nat) (cp fi : Int) : Int × Int :=
  let cols := gridCols mode
  let perPage := imagesPerPage mode
  let indexInPage := fi.emod perPage
  let col := indexInPage.emod cols
  let startIdx := cp * perPage
  if col > 0 then (cp, fi - 1)
  else if fi > 0 then
    let newIndex := fi - 1
    (if newIndex < startIdx ∧ cp > 0 then cp - 1 else cp, newIndex)
  else (cp, fi)

/-- The `ArrowRight` case. -/
def navRight (mode : GridMode) (len : Nat) (cp fi : Int) : Int × Int :=
  let cols := gridCols mode
  let perPage := imagesPerPage mode
  let indexInPage := fi.emod perPage
  let col := indexInPage.emod cols
  let startIdx := cp * perPage
  let endIdx := startIdx + perPage
  if col < cols - 1 ∧ fi + 1 < (len : Int) then
    (cp, if fi + 1 < min (startIdx + perPage) (len : Int) then fi + 1 else fi)
  else if fi + 1 < (len : Int) then
    let newIndex := fi + 1
    (if newIndex ≥ endIdx ∧ cp < totalPages mode len - 1 then cp + 1 else cp,
     newIndex)
  else (cp, fi)

/-- The final `if (newIndex >= 0 && newIndex < images.length)
setFocusedIndex(newIndex)` guard. -/
def commitFocusedIndex (len : Nat) (fi newIndex : Int) : Int :=
  if 0 ≤ newIndex ∧ newIndex < (len : Int) then newIndex else fi

/-- One directional keyboard command: the switch on `e.key` followed by the
final range check on the candidate index.  Returns the new
`(currentPage, focusedIndex)`. -/
def handleArrowKey (key : ArrowKey) (mode : GridMode) (len : Nat)
    (cp fi : Int) : Int × Int :=
  let r :=
    match key with
    | .up => navUp mode len cp fi
    | .down => navDown mode len cp fi
    | .left => navLeft mode len cp fi
    | .right => navRight mode len cp fi
  (r.1, commitFocusedIndex len fi r.2)

theorem commitFocusedIndex_range (len : Nat) (fi newIndex : Int)
    (h0 : 0 ≤ fi) (h1 : fi < (len : Int)) :
    0 ≤ commitFocusedIndex len fi newIndex ∧
      commitFocusedIndex len fi newIndex < (len : Int) := by
  unfold commitFocusedIndex
  split
  · next h => exact h
  · exact ⟨h0, h1⟩

/-- Claim C2: after any single directional navigation command, from any
starting `focusedIndex` in `[0, itemCount)`, on any page, in either grid
mode, for any non-empty item list, the resulting `focusedIndex` is again
in `[0, itemCount)`. -/
theorem C2_navigation_focused_index_stays_in_range (key : ArrowKey)
    (mode : GridMode) (len : Nat) (cp fi : Int) (_hlen : 0 < len)
    (h0 : 0 ≤ fi) (h1 : fi < (len : Int)) :
    0 ≤ (handleArrowKey key mode len cp fi).2 ∧
      (handleArrowKey key mode len cp fi).2 < (len : Int) := by
  cases key <;> exact commitFocusedIndex_range len fi _ h0 h1

/-- Witness for C2: `ArrowUp` in `5x5` mode with 7 items from
`focusedIndex = 1` on page 0. -/
theorem C2_witness :
    (0 < 7 ∧ (0 : Int) ≤ 1 ∧ (1 : Int) < (7 : Nat)) ∧
    0 ≤ (handleArrowKey ArrowKey.up GridMode.fiveByFive 7 0 1).2 ∧
      (handleArrowKey ArrowKey.up GridMode.fiveByFive 7 0 1).2 < ((7 : Nat) : Int) :=
  ⟨by decide,
   C2_navigation_focused_index_stays_in_range ArrowKey.up GridMode.fiveByFive
     7 0 1 (by decide) (by decide) (by decide)⟩

theorem gridCols_le_imagesPerPage (mode : GridMode) :
    gridCols mode ≤ imagesPerPage mode := by
  cases mode <;> decide

/-- Claim C5: `ArrowUp` with the cursor in the first row of the first page
leaves `focusedIndex` and `currentPage` unchanged, and `ArrowDown` with
the cursor in the last row of the last page leaves both unchanged, for any
item count and either grid mode.  (The `ArrowDown` part is proved for any
cursor with no item one row below — `itemCount ≤ focusedIndex + cols` —
which the last row of the last page always satisfies.) -/
theorem C5_up_and_down_noop_at_grid_extremes (mode : GridMode) (len : Nat)
    (cp fi : Int) :
    (0 < len → cp = 0 → 0 ≤ fi → fi < gridCols mode → fi < (len : Int) →
      handleArrowKey ArrowKey.up mode len cp fi = (cp, fi)) ∧
    (0 < len → 0 ≤ fi → fi < (len : Int) → (len : Int) ≤ fi + gridCols mode →
      cp = totalPages mode len - 1 →
      handleArrowKey ArrowKey.down mode len cp fi = (cp, fi)) := by
  constructor
  · intro _hlen hcp h0 hcols hlt
    have hmod : fi.emod (imagesPerPage mode) = fi :=
      Int.emod_eq_of_lt h0 (lt_of_lt_of_le hcols (gridCols_le_imagesPerPage mode))
    have hrow : fi.ediv (gridCols mode) = 0 :=
      Int.ediv_eq_zero_of_lt h0 hcols
    subst hcp
    simp [handleArrowKey, navUp, commitFocusedIndex, hmod, hrow, h0, hlt]
  · intro _hlen h0 hlt hbelow hcp
    have hnd : ¬ (fi + gridCols mode < (len : Int)) := not_lt.2 hbelow
    have hnp : ¬ (cp < totalPages mode len - 1) := by
      rw [hcp]
      exact lt_irrefl _
    simp [handleArrowKey, navDown, commitFocusedIndex, hnd, hnp, h0, hlt]

/-- Witness for C5: in `5x5` mode, `ArrowUp` from index 2 (first row, page
0) of 7 items is a no-op, and `ArrowDown` from index 67 (last row of last
page 2) of 70 items is a no-op. -/
theorem C5_witness :
    handleArrowKey ArrowKey.up GridMode.fiveByFive 7 0 2 = (0, 2) ∧
    handleArrowKey ArrowKey.down GridMode.fiveByFive 70 2 67 = (2, 67) :=
  ⟨(C5_up_and_down_noop_at_grid_extremes GridMode.fiveByFive 7 0 2).1
     (by decide) rfl (by decide) (by decide) (by decide),
   (C5_up_and_down_noop_at_grid_extremes GridMode.fiveByFive 70 2 67).2
     (by decide) (by decide) (by decide) (by decide) (by decide)⟩

/-! ## Grid-mode toggle (`App`, `handleToggleGridMode`) -/

/-- `prev === '5x5' ? '6x4' : '5x5'`. -/
def toggleGridModeValue : GridMode → GridMode
  | .fiveByFive => .sixByFour
  | .sixByFour => .fiveByFive

/-- `handleToggleGridMode`: flips the grid mode and resets `currentPage`
to 0; no other state is written (in particular `setFocusedIndex` is never
called).  Returns the new `(gridMode, currentPage, focusedIndex)`. -/
def handleToggleGridMode (mode : GridMode) (cp fi : Int) :
    GridMode × Int × Int :=
  (toggleGridModeValue mode, 0, fi)

/-- The focused index is positioned on the current page under a given
mode's page size: `currentPage * perPage ≤ focusedIndex <
(currentPage + 1) * perPage`.  This is what "focusedIndex is valid under
the new page size" must mean for the pair `(currentPage, focusedIndex)`
left behind by the toggle — plain range-validity `0 ≤ fi < itemCount`
does not depend on a page size at all. -/
def focusedIndexOnCurrentPage (mode : GridMode) (cp fi : Int) : Prop :=
  cp * imagesPerPage mode ≤ fi ∧ fi < (cp + 1) * imagesPerPage mode

/-- Counterexample to claim C4 as stated: with 70 items in `5x5` mode,
`currentPage = 1`, `focusedIndex = 30`, toggling the grid mode resets the
page to 0 but does NOT recompute `focusedIndex`: it stays 30, which does
not lie on the reset page 0 under the new page size 24 (item 30 is on page
1).  No recomputation making it "valid under the new page size" occurs. -/
theorem C4_counterexample :
    handleToggleGridMode GridMode.fiveByFive 1 30 =
      (GridMode.sixByFour, 0, 30) ∧
    ¬ focusedIndexOnCurrentPage GridMode.sixByFour 0 30 := by
  constructor
  · rfl
  · unfold focusedIndexOnCurrentPage imagesPerPage gridCols gridRows
    decide

/-- Claim C4 amended: toggling the grid mode flips the page size between
25 and 24 and resets `currentPage` to 0, but `focusedIndex` is left
unchanged rather than recomputed; it remains a valid absolute index in
`[0, itemCount)` (its validity is page-size independent), though it need
not lie on the reset page 0. -/
theorem C4_amended_toggle_resets_page_keeps_focused_index
    (mode : GridMode) (len : Nat) (cp fi : Int) (h0 : 0 ≤ fi)
    (h1 : fi < (len : Int)) :
    (handleToggleGridMode mode cp fi).1 = toggleGridModeValue mode ∧
    imagesPerPage (handleToggleGridMode mode cp fi).1 =
      (if mode = GridMode.fiveByFive then 24 else 25) ∧
    (handleToggleGridMode mode cp fi).2.1 = 0 ∧
    (handleToggleGridMode mode cp fi).2.2 = fi ∧
    0 ≤ (handleToggleGridMode mode cp fi).2.2 ∧
    (handleToggleGridMode mode cp fi).2.2 < (len : Int) := by
  refine ⟨rfl, ?_, rfl, rfl, h0, h1⟩
  cases mode <;> rfl

/-- Witness for the amended C4 at 70 items, `5x5`, page 1, index 30. -/
theorem C4_amended_witness :
    (handleToggleGridMode GridMode.fiveByFive 1 30).1 = GridMode.sixByFour ∧
    imagesPerPage (handleToggleGridMode GridMode.fiveByFive 1 30).1 =
      (if GridMode.fiveByFive = GridMode.fiveByFive then 24 else 25) ∧
    (handleToggleGridMode GridMode.fiveByFive 1 30).2.1 = 0 ∧
    (handleToggleGridMode GridMode.fiveByFive 1 30).2.2 = 30 ∧
    (0 : Int) ≤ (handleToggleGridMode GridMode.fiveByFive 1 30).2.2 ∧
    (handleToggleGridMode GridMode.fiveByFive 1 30).2.2 < ((70 : Nat) : Int) :=
  C4_amended_toggle_resets_page_keeps_focused_index GridMode.fiveByFive 70 1 30
    (by decide) (by decide)

/-! ## Full-resolution cache (`App`: `loadFullResImage`, `handleLongPress`,
`handleNavigateLightbox`, page changes, and the cleanup effect)

Only the full-resolution aspect of the item list matters here: each item
carries its `id` and whether a `fullResUrl` handle currently exists.
React state updates within one handler are modelled by sequential state
passing; the cleanup `useEffect` (deps `[currentPage, images.length,
imagesPerPage]`) re-runs exactly when one of those values changes, which
in this transition system means: after a transition that changes
`currentPage` or the grid mode — and after no other transition. -/

/-- An item as seen by the full-resolution cache: its `id` and whether
`fullResUrl` is set. -/
structure CacheItem where
  id : String
  fullRes : Bool
deriving Repr, DecidableEq

/-- The application state driving the full-resolution cache. -/
structure CacheApp where
  items : List CacheItem
  mode : GridMode
  currentPage : Int
  focusedIndex : Int
  lightboxImageId : Option String
deriving Repr, DecidableEq

/-- `images.findIndex(img => img.id === id)`: `-1` when absent. -/
def findIndexById (items : List CacheItem) (id : String) : Int :=
  match items.findIdx? (fun it => it.id == id) with
  | some i => (i : Int)
  | none => -1

/-- `loadFullResImage`: find the item; return unchanged if absent or
already loaded; otherwise set `fullResUrl` on the matching item(s). -/
def loadFullResImage (id : String) (s : CacheApp) : CacheApp :=
  match s.items.find? (fun it => it.id == id) with
  | none => s
  | some image =>
    if image.fullRes then s
    else
      { s with
        items := s.items.map (fun it =>
          if it.id == id then { it with fullRes := true } else it) }

/-- Load the full-resolution handle of the item at a (guarded
non-negative) position, i.e. `loadFullResImage(images[i].id)`. -/
def loadAtIndex (i : Int) (s : CacheApp) : CacheApp :=
  match s.items.get? i.toNat with
  | some it => loadFullResImage it.id s
  | none => s

/-- `handleLongPress`: open the lightbox on `id`, load it, and preload the
two adjacent items. -/
def handleLongPress (id : String) (s : CacheApp) : CacheApp :=
  let s1 := { s with lightboxImageId := some id }
  let s2 := loadFullResImage id s1
  let ci := findIndexById s2.items id
  let len : Int := s2.items.length
  let s3 := if ci > 0 then loadAtIndex (ci - 1) s2 else s2
  if ci < len - 1 then loadAtIndex (ci + 1) s3 else s3

inductive LightboxDir
  | prev
  | next
deriving Repr, DecidableEq

/-- `handleNavigateLightbox`: move the lightbox cursor one step (when a
neighbour exists), sync `focusedIndex`, then load the new item and preload
its neighbours.  `currentPage` is NOT written, so the cleanup effect does
not re-run.  (The `updateSession` persistence call does not touch this
state.) -/
def handleNavigateLightbox (dir : LightboxDir) (s : CacheApp) : CacheApp :=
  match s.lightboxImageId with
  | none => s
  | some lightboxId =>
    let ci := findIndexById s.items lightboxId
    if ci = -1 then s
    else
      let len : Int := s.items.length
      let moved : Option Int :=
        if dir = LightboxDir.prev ∧ ci > 0 then some (ci - 1)
        else if dir = LightboxDir.next ∧ ci < len - 1 then some (ci + 1)
        else none
      let newIndex := moved.getD ci
      let s1 :=
        match moved with
        | some ni =>
          { s with
            lightboxImageId :=
              (s.items.get? ni.toNat).map (fun it : CacheItem => it.id) }
        | none => s
      let s2 := { s1 with focusedIndex := newIndex }
      let s3 := loadAtIndex newIndex s2
      let s4 := if newIndex > 0 then loadAtIndex (newIndex - 1) s3 else s3
      if newIndex < len - 1 then loadAtIndex (newIndex + 1) s4 else s4

/-- Page of the item at position `i`:
`Math.floor(index / imagesPerPage)`. -/
def pageOfIndex (perPage : Int) (i : Nat) : Int := (i : Int).ediv perPage

/-- `pagesToKeep.has(imagePage)` for
`pagesToKeep = Set([currentPage - 1, currentPage, currentPage + 1])`. -/
def inKeepWindow (cp page : Int) : Bool :=
  page == cp - 1 || page == cp || page == cp + 1

/-- The body of the cleanup effect, indexed from `i`: items whose page is
outside the keep window lose their `fullResUrl`. -/
def cleanupFrom (perPage cp : Int) (i : Nat) : List CacheItem → List CacheItem
  | [] => []
  | it :: rest =>
    (if ¬ inKeepWindow cp (pageOfIndex perPage i) ∧ it.fullRes then
        { it with fullRes := false }
      else it) :: cleanupFrom perPage cp (i + 1) rest

/-- The cleanup `useEffect`: a no-op on an empty list, otherwise it strips
full-resolution handles outside pages
`{currentPage - 1, currentPage, currentPage + 1}`. -/
def applyCleanup (s : CacheApp) : CacheApp :=
  if s.items.length = 0 then s
  else
    { s with
      items := cleanupFrom (imagesPerPage s.mode) s.currentPage 0 s.items }

/-- `handleNextPage` (footer button): clamps to the last page; the cleanup
effect re-runs only if `currentPage` actually changed. -/
def handleNextPage (s : CacheApp) : CacheApp :=
  let newPage := min (totalPages s.mode s.items.length - 1) (s.currentPage + 1)
  if newPage = s.currentPage then s
  else applyCleanup { s with currentPage := newPage }

/-- `handlePreviousPage` (footer button). -/
def handlePreviousPage (s : CacheApp) : CacheApp :=
  let newPage := max 0 (s.currentPage - 1)
  if newPage = s.currentPage then s
  else applyCleanup { s with currentPage := newPage }

/-- An arrow key in the grid (the handler is disabled while the lightbox
is open and when the list is empty); the cleanup effect re-runs when the
page changed. -/
def handleArrowOp (key : ArrowKey) (s : CacheApp) : CacheApp :=
  match s.lightboxImageId with
  | some _ => s
  | none =>
    if s.items.length = 0 then s
    else
      let r := handleArrowKey key s.mode s.items.length s.currentPage
        s.focusedIndex
      let s1 := { s with currentPage := r.1, focusedIndex := r.2 }
      if r.1 = s.currentPage then s1 else applyCleanup s1

/-- The Space key: open the lightbox on the focused item (handler disabled
while the lightbox is open). -/
def handleSpaceOp (s : CacheApp) : CacheApp :=
  match s.lightboxImageId with
  | some _ => s
  | none =>
    if s.items.length = 0 then s
    else if 0 ≤ s.focusedIndex ∧ s.focusedIndex < (s.items.length : Int) then
      match s.items.get? s.focusedIndex.toNat with
      | some it => handleLongPress it.id s
      | none => s
    else s

/-- The grid-mode toggle as a cache transition: flips the mode, resets the
page; `imagesPerPage` (an effect dep) changes, so the cleanup effect
re-runs. -/
def handleToggleGridOp (s : CacheApp) : CacheApp :=
  applyCleanup
    { s with mode := toggleGridModeValue s.mode, currentPage := 0 }

/-- `handleCloseLightbox`. -/
def handleCloseLightbox (s : CacheApp) : CacheApp :=
  { s with lightboxImageId := none }

/-- The user-visible transitions of the full-resolution cache system. -/
inductive CacheOp
  | arrow (key : ArrowKey)
  | nextPage
  | prevPage
  | toggleGrid
  | openLightbox
  | closeLightbox
  | lightboxNav (dir : LightboxDir)
deriving Repr, DecidableEq

/-- One transition step. -/
def cacheStep : CacheOp → CacheApp → CacheApp
  | .arrow key => handleArrowOp key
  | .nextPage => handleNextPage
  | .prevPage => handlePreviousPage
  | .toggleGrid => handleToggleGridOp
  | .openLightbox => handleSpaceOp
  | .closeLightbox => handleCloseLightbox
  | .lightboxNav dir => handleNavigateLightbox dir

/-- Run a sequence of transitions. -/
def runCacheOps (s : CacheApp) (ops : List CacheOp) : CacheApp :=
  ops.foldl (fun st op => cacheStep op st) s

/-- Decidable form of the locality-window invariant from position `i`. -/
def allInWindowFrom (perPage cp : Int) (i : Nat) : List CacheItem → Bool
  | [] => true
  | it :: rest =>
    (!it.fullRes || inKeepWindow cp (pageOfIndex perPage i)) &&
      allInWindowFrom perPage cp (i + 1) rest

/-- The claimed invariant: every item holding a full-resolution handle
lies on a page in `{currentPage - 1, currentPage, currentPage + 1}`. -/
def windowInvariant (s : CacheApp) : Bool :=
  allInWindowFrom (imagesPerPage s.mode) s.currentPage 0 s.items

/-- Is some full-resolution handle held by an item on page `p`? -/
def fullResOnPage (s : CacheApp) (p : Int) : Bool :=
  (List.range s.items.length).any (fun i =>
    (match s.items.get? i with
     | some it => it.fullRes
     | none => false) &&
    (pageOfIndex (imagesPerPage s.mode) i == p))

theorem allInWindowFrom_cleanupFrom (perPage cp : Int) :
    ∀ (l : List CacheItem) (i : Nat),
      allInWindowFrom perPage cp i (cleanupFrom perPage cp i l) = true := by
  intro l
  induction l with
  | nil => intro i; rfl
  | cons it rest ih =>
    intro i
    unfold cleanupFrom allInWindowFrom
    rw [ih (i + 1)]
    by_cases hk : inKeepWindow cp (pageOfIndex perPage i) = true
    · simp [hk]
    · have hk2 : inKeepWindow cp (pageOfIndex perPage i) = false := by
        simpa using hk
      cases hfr : it.fullRes with
      | true => simp [hk2, hfr]
      | false => simp [hk2, hfr]

theorem windowInvariant_applyCleanup (s : CacheApp) :
    windowInvariant (applyCleanup s) = true := by
  unfold applyCleanup windowInvariant
  split
  · next h =>
    rw [List.length_eq_zero.1 h]
    rfl
  · exact allInWindowFrom_cleanupFrom _ _ s.items 0

@[simp]
theorem loadFullResImage_currentPage (id : String) (s : CacheApp) :
    (loadFullResImage id s).currentPage = s.currentPage := by
  unfold loadFullResImage
  split
  · rfl
  · split <;> rfl

@[simp]
theorem loadAtIndex_currentPage (i : Int) (s : CacheApp) :
    (loadAtIndex i s).currentPage = s.currentPage := by
  unfold loadAtIndex
  split
  · exact loadFullResImage_currentPage _ _
  · rfl

theorem handleLongPress_currentPage (id : String) (s : CacheApp) :
    (handleLongPress id s).currentPage = s.currentPage := by
  unfold handleLongPress
  dsimp only
  split <;> split <;> simp

theorem handleSpaceOp_currentPage (s : CacheApp) :
    (handleSpaceOp s).currentPage = s.currentPage := by
  unfold handleSpaceOp
  split
  · rfl
  · split
    · rfl
    · split
      · split
        · exact handleLongPress_currentPage _ _
        · rfl
      · rfl

theorem handleNavigateLightbox_currentPage (dir : LightboxDir) (s : CacheApp) :
    (handleNavigateLightbox dir s).currentPage = s.currentPage := by
  unfold handleNavigateLightbox
  split
  · rfl
  · dsimp only
    repeat' split
    all_goals simp

/-- Claim C3 amended: full-resolution handles outside the locality window
`{currentPage - 1, currentPage, currentPage + 1}` are released
deterministically on every change of `currentPage` (every page-changing
transition runs the cleanup effect, after which the window invariant
holds); the invariant does NOT hold at every reachable state, because
lightbox prev/next navigation loads full-resolution handles for items
arbitrarily far from `currentPage` without changing it (see the
counterexample). -/
theorem C3_amended_window_restored_on_every_page_change (s : CacheApp)
    (op : CacheOp)
    (hchanged : (cacheStep op s).currentPage ≠ s.currentPage) :
    windowInvariant (cacheStep op s) = true := by
  cases op with
  | arrow key =>
    revert hchanged
    show (handleArrowOp key s).currentPage ≠ s.currentPage →
      windowInvariant (handleArrowOp key s) = true
    unfold handleArrowOp
    split
    · intro h; exact absurd rfl h
    · split
      · intro h; exact absurd rfl h
      · dsimp only
        split
        · next heq => intro h; exact absurd heq h
        · intro _; exact windowInvariant_applyCleanup _
  | nextPage =>
    revert hchanged
    show (handleNextPage s).currentPage ≠ s.currentPage →
      windowInvariant (handleNextPage s) = true
    unfold handleNextPage
    dsimp only
    split
    · intro h; exact absurd rfl h
    · intro _; exact windowInvariant_applyCleanup _
  | prevPage =>
    revert hchanged
    show (handlePreviousPage s).currentPage ≠ s.currentPage →
      windowInvariant (handlePreviousPage s) = true
    unfold handlePreviousPage
    dsimp only
    split
    · intro h; exact absurd rfl h
    · intro _; exact windowInvariant_applyCleanup _
  | toggleGrid =>
    exact windowInvariant_applyCleanup
      { s with mode := toggleGridModeValue s.mode, currentPage := 0 }
  | openLightbox => exact absurd (handleSpaceOp_currentPage s) hchanged
  | closeLightbox => exact absurd rfl hchanged
  | lightboxNav dir =>
    exact absurd (handleNavigateLightbox_currentPage dir s) hchanged

/-- Witness for the amended C3: moving from page 0 to page 1 over 30 items
changes the page and the resulting state satisfies the window invariant. -/
theorem C3_amended_witness :
    ((cacheStep CacheOp.nextPage
        { items := (List.range 30).map
            (fun i => { id := toString i, fullRes := false }),
          mode := GridMode.fiveByFive, currentPage := 0, focusedIndex := 0,
          lightboxImageId := none }).currentPage ≠ (0 : Int)) ∧
    windowInvariant (cacheStep CacheOp.nextPage
        { items := (List.range 30).map
            (fun i => { id := toString i, fullRes := false }),
          mode := GridMode.fiveByFive, currentPage := 0, focusedIndex := 0,
          lightboxImageId := none }) = true :=
  ⟨by decide,
   C3_amended_window_restored_on_every_page_change _ CacheOp.nextPage
     (by decide)⟩

/-- The post-scan initial state for the counterexample trace: 80 items
(pages 0-3 in `5x5` mode), page 0, cursor 0, lightbox closed, no handles —
exactly the state `handleSelectFolder` produces for a fresh 80-image
folder. -/
def cacheCounterexampleInit : CacheApp :=
  { items := (List.range 80).map (fun i => { id := toString i, fullRes := false }),
    mode := GridMode.fiveByFive, currentPage := 0, focusedIndex := 0,
    lightboxImageId := none }

/-- Open the lightbox on the focused item, then press next 75 times. -/
def cacheCounterexampleTrace : List CacheOp :=
  CacheOp.openLightbox :: List.replicate 75 (CacheOp.lightboxNav LightboxDir.next)

/-- Counterexample to claim C3 as stated: after opening the lightbox at
index 0 and navigating next 75 times — an interleaving of lightbox opens
and lightbox prev/next navigation with no page change — `currentPage` is
still 0, yet full-resolution handles are held by items on every one of the
pages 0, 1, 2 and 3 (four pages' worth), pages 2 and 3 lying outside the
locality window `{-1, 0, 1}`; the window invariant is violated at this
reachable state. -/
theorem C3_counterexample :
    windowInvariant
        (runCacheOps cacheCounterexampleInit cacheCounterexampleTrace) =
      false ∧
    (runCacheOps cacheCounterexampleInit cacheCounterexampleTrace).currentPage
      = 0 ∧
    fullResOnPage
        (runCacheOps cacheCounterexampleInit cacheCounterexampleTrace) 0 =
      true ∧
    fullResOnPage
        (runCacheOps cacheCounterexampleInit cacheCounterexampleTrace) 1 =
      true ∧
    fullResOnPage
        (runCacheOps cacheCounterexampleInit cacheCounterexampleTrace) 2 =
      true ∧
    fullResOnPage
        (runCacheOps cacheCounterexampleInit cacheCounterexampleTrace) 3 =
      true := by
  refine ⟨?_, ?_, ?_, ?_, ?_, ?_⟩
  · set_option maxRecDepth 200000 in decide
  · set_option maxRecDepth 200000 in decide
  · set_option maxRecDepth 200000 in decide
  · set_option maxRecDepth 200000 in decide
  · set_option maxRecDepth 200000 in decide
  · set_option maxRecDepth 200000 in decide
